import Mathlib

/-!
Verification of the stint-based tire-degradation and pace-normalization
computation shared by the Formula1 analysis scripts.

The definitions below are shallow embeddings of the Python/pandas code:
a row of the fastf1 laps table becomes a `Lap` record, boolean-mask
selection becomes `List.filter`, `np.polyfit(x, y, 1)` becomes the exact
ordinary-least-squares slope formula over `ℚ`, and pandas' linear
interpolation quantile is reproduced exactly. Lap times are modelled in
exact rational arithmetic; a pandas `NaN`/`NaT` entry is `Option.none`.
-/

namespace Formula1

/-- A row of the fastf1 laps table, restricted to the columns the analysis
scripts read: LapNumber, LapTime (in seconds; `none` models NaT),
IsAccurate, PitInTime/PitOutTime presence flags, Compound and the Stint
column (absent upstream until assigned). -/
structure Lap where
  lapNumber : Option ℚ
  lapTimeS : Option ℚ
  isAccurate : Bool
  pitIn : Bool
  pitOut : Bool
  compound : String
  stint : Option Nat
deriving DecidableEq, Repr

/-- The lap-usability mask applied identically in tire_degradation_analysis.py
(lines 34-39), compare_tire_degradation.py (lines 54-59),
quali_race_pace_delta.py (lines 36-41) and qualifying_vs_race_pace.py
(lines 59-64): IsAccurate, LapTime present, not a pit-in and not a
pit-out lap. -/
def usableLap (l : Lap) : Bool :=
  l.isAccurate && l.lapTimeS.isSome && !l.pitIn && !l.pitOut

/-- Boolean-mask row selection `laps.loc[mask]` with the usability mask:
the Lap Filter stage. Row order of a pandas `.loc` selection is the
original row order. -/
def lapFilter (laps : List Lap) : List Lap :=
  laps.filter usableLap

/-- Dot product of two equally long columns, as used by the least-squares
normal equations underlying `np.polyfit(x, y, 1)`. -/
def dotQ (xs ys : List ℚ) : ℚ :=
  (List.zipWith (fun a b => a * b) xs ys).sum

/-- The slope returned by `np.polyfit(x, y, 1)` in the non-degenerate case:
the closed-form ordinary-least-squares solution
(n·Σxy − Σx·Σy) / (n·Σx² − (Σx)²) of the degree-one least squares
problem numpy solves. -/
def polyfitSlope (xs ys : List ℚ) : ℚ :=
  let n : ℚ := xs.length
  (n * dotQ xs ys - xs.sum * ys.sum) / (n * dotQ xs xs - xs.sum ^ 2)

/-- Insertion step of the sort used to model pandas' internal sorting when
computing quantiles. -/
def insertLE (x : ℚ) : List ℚ → List ℚ
  | [] => [x]
  | y :: ys => if x ≤ y then x :: y :: ys else y :: insertLE x ys

/-- Sorting of a rational column in nondecreasing order. -/
def sortQ (xs : List ℚ) : List ℚ :=
  xs.foldr insertLE []

/-- Floor of a nonnegative rational, used for the interpolation index of a
quantile position. -/
def floorNonneg (q : ℚ) : ℕ :=
  q.num.toNat / q.den

/-- Exact embedding of `Series.quantile(q)` with pandas' default linear
interpolation: with the column sorted ascending and h = (n−1)·q, the
result is s[⌊h⌋] + (h − ⌊h⌋) · (s[⌊h⌋+1] − s[⌊h⌋]). -/
def quantileQ (xs : List ℚ) (q : ℚ) : ℚ :=
  let s := sortQ xs
  let h : ℚ := ((s.length : ℚ) - 1) * q
  let i := floorNonneg h
  let lo := s.getD i 0
  let hi := s.getD (i + 1) lo
  lo + (h - (i : ℚ)) * (hi - lo)

/-- Column mean, as computed by `Series.mean()` on a nonempty column. -/
def meanQ (xs : List ℚ) : ℚ :=
  xs.sum / (xs.length : ℚ)

/-- Minimum of a nonempty column, as computed by `Series.min()` /
Python `min` (0 is never reached: every caller guards nonemptiness). -/
def minQ : List ℚ → ℚ
  | [] => 0
  | h :: t => t.foldl min h

/-- Lexicographic comparison of character code points, the order Python
uses to compare strings (pandas sorts mode values with it). -/
def charListLt : List Char → List Char → Bool
  | [], [] => false
  | [], _ :: _ => true
  | _ :: _, [] => false
  | c :: cs, d :: ds =>
    if c.toNat < d.toNat then true
    else if d.toNat < c.toNat then false
    else charListLt cs ds

/-- String comparison by code points, as Python's `<` on str. -/
def strLtB (a b : String) : Bool :=
  charListLt a.data b.data

/-- One comparison step of `Series.mode()[0]`: keep the value seen so far
unless the candidate occurs more often, or occurs equally often and is
smaller in string order (pandas sorts the modes ascending, and `[0]`
takes the first). -/
def pickCompound (xs : List String) (b x : String) : String :=
  if xs.count x > xs.count b then x
  else if (xs.count x == xs.count b) && strLtB x b then x
  else b

/-- Embedding of `valid_stint_laps['Compound'].mode()[0]`
(qualifying_vs_race_pace.py line 69): the most frequent value of the
column, ties resolved towards the smallest value in string order. -/
def modeCompound (xs : List String) : String :=
  xs.foldl (pickCompound xs) (xs.headD "")

/-- Embedding of the `Compound=('Compound', 'first')` aggregation of
tire_strategy_impact.py (line 89): the compound of the first lap of the
group. -/
def stintCompoundFirst : List Lap → String
  | [] => ""
  | l :: _ => l.compound

/-- One row of the DataFrame built by `analyze_race_stints`
(qualifying_vs_race_pace.py lines 97-103): stint compound, number of
valid laps, trimmed average pace and the reported degradation value. -/
structure StintRow where
  compound : String
  lapsCount : ℕ
  avgPace : ℚ
  degradation : ℚ
deriving DecidableEq, Repr

/-- Embedding of lines 82-95 of qualifying_vs_race_pace.py applied to the
valid laps of a stint: relative lap numbers are the lap numbers minus
their minimum, rows whose LapNumber is NaN are masked out, and if more
than one point remains `np.polyfit` is run on ALL remaining points. When
at most one point remains, or when every relative lap number is zero
(an all-zero x column makes numpy's column rescaling produce NaNs and
`lstsq` raise `LinAlgError`, caught at line 94), the code falls back to
a degradation of 0.0. The fitted slope is multiplied by 60 (line 91). -/
def fitDegradation (valid : List Lap) : ℚ :=
  let m := minQ (valid.filterMap (fun l => l.lapNumber))
  let pts := valid.filterMap (fun l =>
    l.lapNumber.map (fun n => (n - m, l.lapTimeS.getD 0)))
  if 1 < pts.length then
    if pts.all (fun p => decide (p.1 = 0)) then 0
    else polyfitSlope (pts.map Prod.fst) (pts.map Prod.snd) * 60
  else 0

/-- Embedding of the per-stint loop body of `analyze_race_stints`
(qualifying_vs_race_pace.py lines 57-103). `none` models `continue`
(no row appended): fewer than 3 valid laps, or an empty percentile-trimmed
lap-time series. Otherwise a row is appended whose average pace is the
mean of the lap times strictly inside the [5th, 95th] percentile band and
whose degradation is computed from ALL valid laps (lines 82-95; the
percentile trim of lines 73-75 is not applied to the fit). -/
def analyzeStint (stint : List Lap) : Option StintRow :=
  let valid := lapFilter stint
  if valid.length < 3 then none
  else
    let times := valid.filterMap (fun l => l.lapTimeS)
    let qlow := quantileQ times (1 / 20)
    let qhigh := quantileQ times (19 / 20)
    let filtered := times.filter (fun t => decide (qlow < t) && decide (t < qhigh))
    if filtered.isEmpty then none
    else
      some { compound := modeCompound (valid.map (fun l => l.compound)),
             lapsCount := valid.length,
             avgPace := meanQ filtered,
             degradation := fitDegradation valid }

/-- Embedding of the per-compound fit of compare_tire_degradation.py
(lines 89-93): each point is (LapNumber, LapTime in seconds); with more
than one point the reported rate is the `np.polyfit` slope itself
(in s/lap), otherwise no rate is reported for this compound. -/
def compoundSlope (pts : List (ℚ × ℚ)) : Option ℚ :=
  if 1 < pts.length then
    some (polyfitSlope (pts.map Prod.fst) (pts.map Prod.snd))
  else none

/-- A lap carries a pit flag when either of its pit timestamps is present:
`laps['PitOutTime'].notna() | laps['PitInTime'].notna()`
(qualifying_vs_race_pace.py lines 50 and 243). -/
def pitFlag (l : Lap) : Bool :=
  l.pitOut || l.pitIn

/-- Embedding of the stint labelling of qualifying_vs_race_pace.py
(lines 243-244, and the fallback at lines 50-51): the label of a row is
the running count of pit-flagged rows up to and including it, plus one,
plus an extra one on pit-out rows. `c` is the running cumulative sum. -/
def labelLaps (c : ℕ) : List Lap → List (ℕ × Lap)
  | [] => []
  | l :: ls =>
    let c1 := c + (if pitFlag l then 1 else 0)
    (c1 + 1 + (if l.pitOut then 1 else 0), l) :: labelLaps c1 ls

/-- Insertion step of the ascending sort of group keys performed by
`groupby` (pandas sorts group keys by default). -/
def insertLENat (x : ℕ) : List ℕ → List ℕ
  | [] => [x]
  | y :: ys => if x ≤ y then x :: y :: ys else y :: insertLENat x ys

/-- Ascending sort of the stint labels. -/
def sortNatList (xs : List ℕ) : List ℕ :=
  xs.foldr insertLENat []

/-- Embedding of `laps.groupby('Stint')` after the stint labelling: the
stints are the groups of equally labelled rows, enumerated in ascending
label order, each group keeping the original row order. -/
def segmentStints (laps : List Lap) : List (List Lap) :=
  let labeled := labelLaps 0 laps
  let keys := (sortNatList (labeled.map Prod.fst)).dedup
  keys.map (fun k => (labeled.filter (fun p => p.1 == k)).map Prod.snd)

/-- Embedding of the state update performed by lines 243-245 of
qualifying_vs_race_pace.py: `race_laps['Stint'] = ...` writes the
computed stint labels into the Stint column of the lap rows bound to
`race_laps`, so the stage's output state is the received lap sequence
with its stint field overwritten. -/
def assignStints (laps : List Lap) : List Lap :=
  (labelLaps 0 laps).map (fun p => { p.2 with stint := some p.1 })

/-- A lap with its (mutable) Stint column blanked, used to compare lap
data up to the stint field. -/
def clearStint (l : Lap) : Lap :=
  { l with stint := none }

/-- Embedding of `race_pace_rel = (pace − fastest) / fastest × 100`
(season_performance_consistency.py line 96); the same shape as
`delta_percent = ((r_pace − q_pace) / q_pace) × 100`
(quali_race_pace_delta.py line 92). -/
def racePaceRel (pace fastest : ℚ) : ℚ :=
  (pace - fastest) / fastest * 100

/-- Embedding of the absolute pace delta `Race − Qualifying`
(qualifying_vs_race_pace.py lines 142 and 282). -/
def paceDelta (race quali : ℚ) : ℚ :=
  race - quali

/-- Outcome of one iteration of the per-driver loop of
`analyze_quali_race_pace_delta` (quali_race_pace_delta.py lines 87-101):
either the driver is explicitly skipped with an "Insufficient data"
message, or a delta row is appended, or — when the qualifying reference
is exactly zero — the Python float division raises an uncaught
`ZeroDivisionError` that aborts the whole analysis. -/
inductive DriverDeltaResult where
  | insufficientSkip : DriverDeltaResult
  | delta : ℚ → DriverDeltaResult
  | zeroDivisionCrash : DriverDeltaResult
deriving DecidableEq, Repr

/-- Embedding of quali_race_pace_delta.py lines 89-101: `None` paces are
skipped explicitly; otherwise `delta_percent = ((r − q) / q) × 100` is
computed, which for q = 0 raises an uncaught `ZeroDivisionError`
(the loop is outside the try block of lines 77-84). -/
def driverDelta (q r : Option ℚ) : DriverDeltaResult :=
  match q, r with
  | some qp, some rp =>
    if qp = 0 then .zeroDivisionCrash
    else .delta ((rp - qp) / qp * 100)
  | _, _ => .insufficientSkip

/-- Convenience constructor for concrete laps: lap number, lap time in
seconds, compound, and optional pit flags (accurate, non-pit by
default). -/
def mkLap (n : Option ℚ) (t : ℚ) (comp : String := "SOFT")
    (pin : Bool := false) (pout : Bool := false) : Lap :=
  { lapNumber := n, lapTimeS := some t, isAccurate := true, pitIn := pin,
    pitOut := pout, compound := comp, stint := none }

/-- A stint of three valid laps whose lap numbers are all 10, so every
relative lap number is 0 and the least-squares slope is undefined. -/
def c1IdentLaps : List Lap :=
  [mkLap (some 10) 90, mkLap (some 10) (181 / 2), mkLap (some 10) 91]

/-- A stint of three valid laps of which two have a NaN lap number, so a
single usable point remains for the fit. -/
def c1NanLaps : List Lap :=
  [mkLap (some 4) 90, mkLap none (181 / 2), mkLap none 91]

/-- The synthetic stint of the spec: relative laps 0, 1, 2 (lap numbers
5, 6, 7) with lap times 90, 90.5, 91 seconds. -/
def c2Laps : List Lap :=
  [mkLap (some 5) 90, mkLap (some 6) (181 / 2), mkLap (some 7) 91]

/-- A stint with one extreme traffic-affected outlier lap (200 s) above
the 95th percentile of the stint's lap times. -/
def c3Laps : List Lap :=
  [mkLap (some 1) 90, mkLap (some 2) (181 / 2), mkLap (some 3) 91,
   mkLap (some 4) (183 / 2), mkLap (some 5) 200]

/-- A lap sequence with exactly one pit-out event strictly inside it. -/
def c4PitLaps : List Lap :=
  [mkLap (some 1) 90, mkLap (some 2) 95 "SOFT" false true, mkLap (some 3) 91]

/-- A lap sequence with no pit events at all. -/
def c4PlainLaps : List Lap :=
  [mkLap (some 1) 90, mkLap (some 2) 91]

/-- A lap sequence mixing one usable lap, one pit-in lap and one
inaccurate lap. -/
def c5DemoLaps : List Lap :=
  [mkLap (some 1) 90, mkLap (some 2) 95 "SOFT" true false,
   { mkLap (some 3) 91 with isAccurate := false }]

/-- A stint whose first lap is mislabelled SOFT while the remaining two
laps are MEDIUM. -/
def c8Laps : List Lap :=
  [mkLap (some 1) 90 "SOFT", mkLap (some 2) (181 / 2) "MEDIUM",
   mkLap (some 3) 91 "MEDIUM"]

/-- A single-lap sequence whose Stint column is still absent. -/
def c9Laps : List Lap :=
  [mkLap (some 1) 90]

section

attribute [local semireducible] Rat.add Rat.mul Rat.sub Rat.inv

/-- Every row appended by `analyze_race_stints` carries the mode of the
valid laps' compounds, the count of the valid laps, and a degradation
computed by the fit of lines 82-95 from ALL valid laps. -/
theorem analyzeStint_fields (s : List Lap) (r : StintRow) (h : analyzeStint s = some r) :
    r.compound = modeCompound ((lapFilter s).map (fun l => l.compound)) ∧
    r.lapsCount = (lapFilter s).length ∧
    r.degradation = fitDegradation (lapFilter s) := by
  simp only [analyzeStint] at h
  split_ifs at h
  injection h with h3
  subst h3
  exact ⟨rfl, rfl, rfl⟩

/-- The value kept by one mode-comparison step occurs at least as often
as the previously kept value. -/
theorem count_le_pickCompound_left (xs : List String) (b x : String) :
    xs.count b ≤ xs.count (pickCompound xs b x) := by
  unfold pickCompound
  split_ifs with h1 h2
  · exact le_of_lt h1
  · have h3 : xs.count x = xs.count b := by
      have h4 := (Bool.and_eq_true _ _).mp h2
      simpa using h4.1
    exact le_of_eq h3.symm
  · exact le_refl _

/-- The value kept by one mode-comparison step occurs at least as often
as the candidate value offered to it. -/
theorem count_le_pickCompound_right (xs : List String) (b x : String) :
    xs.count x ≤ xs.count (pickCompound xs b x) := by
  unfold pickCompound
  split_ifs with h1 h2
  · exact le_refl _
  · exact le_refl _
  · exact le_of_not_lt h1

/-- Folding mode-comparison steps never decreases the count of the kept
value. -/
theorem count_le_foldl_pick (xs : List String) :
    ∀ (l : List String) (b : String),
      xs.count b ≤ xs.count (l.foldl (pickCompound xs) b)
  | [], _ => le_refl _
  | x :: t, b =>
    le_trans (count_le_pickCompound_left xs b x)
      (count_le_foldl_pick xs t (pickCompound xs b x))

/-- The value kept after folding mode-comparison steps over a list occurs
at least as often as any member of that list. -/
theorem count_mem_le_foldl_pick (xs : List String) :
    ∀ (l : List String) (b c : String), c ∈ l →
      xs.count c ≤ xs.count (l.foldl (pickCompound xs) b) := by
  intro l
  induction l with
  | nil => intro b c hc; cases hc
  | cons x t ih =>
    intro b c hc
    rcases List.mem_cons.mp hc with rfl | hmem
    · exact le_trans (count_le_pickCompound_right xs b c)
        (count_le_foldl_pick xs t (pickCompound xs b c))
    · exact ih (pickCompound xs b x) c hmem

/-- The embedded `Series.mode()[0]` returns a most frequent value of the
column. -/
theorem modeCompound_most_frequent (xs : List String) (c : String) (hc : c ∈ xs) :
    xs.count c ≤ xs.count (modeCompound xs) :=
  count_mem_le_foldl_pick xs xs (xs.headD "") c hc

/-- On laps with no pit timestamps, the cumulative-sum labelling assigns
the same label c + 1 to every lap. -/
theorem labelLaps_no_flags :
    ∀ (c : ℕ) (laps : List Lap), (∀ l ∈ laps, pitFlag l = false) →
      labelLaps c laps = laps.map (fun l => (c + 1, l)) := by
  intro c laps
  induction laps generalizing c with
  | nil => intro _; simp [labelLaps]
  | cons a t ih =>
    intro h
    have ha : pitFlag a = false := h a (List.mem_cons_self a t)
    have hpo : a.pitOut = false := by
      have h0 := ha
      simp only [pitFlag, Bool.or_eq_false_iff] at h0
      exact h0.1
    have ih2 := ih c (fun l hl => h l (List.mem_cons_of_mem a hl))
    simp [labelLaps, ha, hpo, ih2]

/-- Inserting the label 1 into an all-ones list prepends it. -/
theorem insertLENat_one_replicate (n : ℕ) :
    insertLENat 1 (List.replicate n 1) = List.replicate (n + 1) 1 := by
  cases n with
  | zero => rfl
  | succ m => simp [insertLENat, List.replicate_succ]

/-- Sorting an all-ones label list leaves it unchanged. -/
theorem sortNat_replicate_one (n : ℕ) :
    sortNatList (List.replicate n 1) = List.replicate n 1 := by
  induction n with
  | zero => rfl
  | succ m ih =>
    simp only [sortNatList, List.replicate_succ, List.foldr_cons]
    have h1 : List.foldr insertLENat [] (List.replicate m 1) = List.replicate m 1 := ih
    rw [h1, insertLENat_one_replicate]
    rfl

/-- Deduplicating a nonempty all-ones label list yields the single
key 1. -/
theorem dedup_replicate_one (n : ℕ) (h : 0 < n) :
    (List.replicate n (1 : ℕ)).dedup = [1] := by
  induction n with
  | zero => cases h
  | succ m ih =>
    cases m with
    | zero => rfl
    | succ k =>
      rw [List.replicate_succ, List.dedup_cons_of_mem (by simp)]
      exact ih (Nat.succ_pos k)

/-- With no pit events the segmenter returns the whole sequence as the
single group of the single key 1. -/
theorem segment_no_pits (laps : List Lap) (hne : laps ≠ [])
    (h : ∀ l ∈ laps, l.pitIn = false ∧ l.pitOut = false) :
    segmentStints laps = [laps] := by
  have hflag : ∀ l ∈ laps, pitFlag l = false := by
    intro l hl
    simp [pitFlag, (h l hl).1, (h l hl).2]
  have hlab : labelLaps 0 laps = laps.map (fun l => ((1 : ℕ), l)) := by
    rw [labelLaps_no_flags 0 laps hflag]
  have hfst : (laps.map (fun l => ((1 : ℕ), l))).map Prod.fst
      = List.replicate laps.length 1 := by
    rw [List.map_map]
    exact List.map_const' laps 1
  have hfilter : (laps.map (fun l => ((1 : ℕ), l))).filter (fun p => p.1 == 1)
      = laps.map (fun l => ((1 : ℕ), l)) := by
    apply List.filter_eq_self.mpr
    intro p hp
    rcases List.mem_map.mp hp with ⟨l, _, rfl⟩
    rfl
  have hsnd : (laps.map (fun l => ((1 : ℕ), l))).map Prod.snd = laps := by
    rw [List.map_map]
    exact List.map_id laps
  simp only [segmentStints, hlab, hfst, sortNat_replicate_one,
    dedup_replicate_one laps.length (List.length_pos.mpr hne),
    List.map_cons, List.map_nil, hfilter, hsnd]

/-- Dropping the labels of the cumulative-sum labelling recovers the lap
sequence. -/
theorem labelLaps_map_snd : ∀ (c : ℕ) (laps : List Lap),
    (labelLaps c laps).map Prod.snd = laps := by
  intro c laps
  induction laps generalizing c with
  | nil => rfl
  | cons a t ih => simp [labelLaps, ih]

/-- Shifting a column by a constant shifts its sum by length times the
constant. -/
theorem sum_map_sub (c : ℚ) (xs : List ℚ) :
    (xs.map (fun x => x - c)).sum = xs.sum - xs.length * c := by
  induction xs with
  | nil => simp
  | cons a t ih => simp [ih]; ring

/-- Effect of shifting the x column on the cross term of the normal
equations. -/
theorem dot_map_sub (c : ℚ) : ∀ (xs ys : List ℚ), xs.length = ys.length →
    dotQ (xs.map (fun x => x - c)) ys = dotQ xs ys - c * ys.sum := by
  intro xs
  induction xs with
  | nil =>
    intro ys h
    cases ys with
    | nil => simp [dotQ]
    | cons b u => simp at h
  | cons a t ih =>
    intro ys h
    cases ys with
    | nil => simp at h
    | cons b u =>
      have hl : t.length = u.length := by simpa using h
      simp only [List.map_cons, dotQ, List.zipWith_cons_cons, List.sum_cons]
      have h2 := ih u hl
      simp only [dotQ] at h2
      rw [h2]
      ring

/-- Effect of shifting the x column on its sum of squares. -/
theorem dot_map_sub_self (c : ℚ) (xs : List ℚ) :
    dotQ (xs.map (fun x => x - c)) (xs.map (fun x => x - c)) =
      dotQ xs xs - 2 * c * xs.sum + (xs.length : ℚ) * c ^ 2 := by
  induction xs with
  | nil => simp [dotQ]
  | cons a t ih =>
    simp only [List.map_cons, dotQ, List.zipWith_cons_cons, List.sum_cons,
      List.length_cons] at ih ⊢
    rw [ih]
    push_cast
    ring

/-- The ordinary-least-squares slope is invariant under translating the
x column by any constant. -/
theorem polyfitSlope_shift (c : ℚ) (xs ys : List ℚ) (hlen : xs.length = ys.length) :
    polyfitSlope (xs.map (fun x => x - c)) ys = polyfitSlope xs ys := by
  unfold polyfitSlope
  rw [List.length_map, sum_map_sub, dot_map_sub c xs ys hlen, dot_map_sub_self]
  ring

/-- Claim C1 (code_bug): on a stint of three accurate, timed, non-pit laps
whose lap numbers are all identical — so every relative lap number is 0
and the least-squares slope is undefined — `analyze_race_stints` appends
a result row carrying a degradation of 0.0, and it does the same when
NaN lap numbers leave only one usable point for the fit; in both cases
a zero slope is reported as if measured instead of an explicit
undefined/InsufficientData result. -/
theorem c1_degradation_zero_fallback_on_degenerate_stints :
    ((lapFilter c1IdentLaps).map (fun l => l.lapNumber)).all
      (fun n => n == some 10) = true ∧
    analyzeStint c1IdentLaps = some (StintRow.mk "SOFT" 3 (181 / 2) 0) ∧
    (analyzeStint c1NanLaps).map StintRow.degradation = some 0 := by
  decide

/-- Claim C2 (code_bug): for the synthetic stint with relative laps
0, 1, 2 and lap times 90, 90.5, 91 seconds, the per-compound fit of
compare_tire_degradation.py reports the least-squares slope 0.5 s/lap,
but `analyze_race_stints` multiplies the same fitted slope by 60
(line 91) and stores 30.0 in its Degradation_s_per_lap column. -/
theorem c2_degradation_rate_times_sixty_divergence :
    compoundSlope [(5, 90), (6, 181 / 2), (7, 91)] = some (1 / 2) ∧
    (analyzeStint c2Laps).map StintRow.degradation = some 30 ∧
    (30 : ℚ) ≠ 1 / 2 := by
  decide

/-- Claim C3 counterexample: in the stint c3Laps the 200 s lap lies above
the 95th percentile (178.3 s) of the stint's lap times, yet the
degradation reported by `analyze_race_stints` is 60 times the slope
fitted over ALL five valid laps (1326), not 60 times the slope fitted
over the laps inside the percentile band (30): the outlier lap is NOT
excluded from the slope fit. -/
theorem c3_outlier_lap_not_excluded_from_fit :
    (∃ l ∈ lapFilter c3Laps, l.lapTimeS = some 200) ∧
    quantileQ ((lapFilter c3Laps).filterMap (fun l => l.lapTimeS)) (19 / 20)
      = 1783 / 10 ∧
    (1783 / 10 : ℚ) < 200 ∧
    (analyzeStint c3Laps).map StintRow.degradation = some 1326 ∧
    polyfitSlope [1, 2, 3] [181 / 2, 91, 183 / 2] * 60 = 30 ∧
    (1326 : ℚ) ≠ 30 := by
  decide

/-- Claim C3 (amended): the [5th, 95th] percentile trim is applied only to
the average-pace computation; every row produced by
`analyze_race_stints` reports a degradation fitted from ALL valid laps
of the stint and a lap count equal to the untrimmed Lap Filter output,
so the trim has no effect on the fit or outside the estimator. -/
theorem c3_trim_local_to_average_pace (s : List Lap) (r : StintRow)
    (h : analyzeStint s = some r) :
    r.degradation = fitDegradation (lapFilter s) ∧
    r.lapsCount = (lapFilter s).length :=
  ⟨(analyzeStint_fields s r h).2.2, (analyzeStint_fields s r h).2.1⟩

/-- Witness for c3_trim_local_to_average_pace at the concrete stint
c3Laps. -/
theorem c3_trim_local_to_average_pace_witness :
    (StintRow.mk "SOFT" 5 91 1326).degradation = fitDegradation (lapFilter c3Laps) ∧
    (StintRow.mk "SOFT" 5 91 1326).lapsCount = (lapFilter c3Laps).length :=
  c3_trim_local_to_average_pace c3Laps (StintRow.mk "SOFT" 5 91 1326) (by decide)

/-- Claim C4 counterexample: the lap sequence c4PitLaps has exactly one
pit-out event, yet the segmenter produces three stints, not two, and
concatenating the stints in stint order does not reproduce the original
lap sequence (the pit-out lap is moved to the last group). -/
theorem c4_single_pit_out_yields_three_stints :
    (c4PitLaps.filter (fun l => l.pitOut)).length = 1 ∧
    (segmentStints c4PitLaps).length = 3 ∧
    (segmentStints c4PitLaps).length ≠ 1 + 1 ∧
    (segmentStints c4PitLaps).flatten ≠ c4PitLaps := by
  decide

/-- Claim C4 (amended): when no pit events exist the entire session forms
a single stint and concatenation reproduces the lap sequence; but in
general each pit-in or pit-out lap increments the cumulative stint
counter and a pit-out lap receives an extra increment, so one pit stop
can produce three stint groups and group order need not match lap
order. -/
theorem c4_no_pit_events_single_stint (laps : List Lap) (hne : laps ≠ [])
    (h : ∀ l ∈ laps, l.pitIn = false ∧ l.pitOut = false) :
    segmentStints laps = [laps] ∧ (segmentStints laps).flatten = laps := by
  have hmain := segment_no_pits laps hne h
  refine ⟨hmain, ?_⟩
  rw [hmain]
  simp

/-- Witness for c4_no_pit_events_single_stint at the concrete pit-free
sequence c4PlainLaps. -/
theorem c4_no_pit_events_single_stint_witness :
    segmentStints c4PlainLaps = [c4PlainLaps] ∧
    (segmentStints c4PlainLaps).flatten = c4PlainLaps :=
  c4_no_pit_events_single_stint c4PlainLaps (by decide) (by decide)

/-- Claim C5 (confirmed): the Lap Filter returns exactly the ordered
sub-sequence of laps that are accurate, timed and neither pit-in nor
pit-out, and it returns the empty sequence when no laps qualify. -/
theorem c5_lap_filter_ordered_subsequence (laps : List Lap) :
    (lapFilter laps).Sublist laps ∧
    (∀ l, l ∈ lapFilter laps ↔ l ∈ laps ∧ usableLap l = true) ∧
    ((∀ l ∈ laps, usableLap l = false) → lapFilter laps = []) := by
  refine ⟨List.filter_sublist laps, fun l => List.mem_filter, fun hnone => ?_⟩
  apply List.filter_eq_nil_iff.mpr
  intro a ha
  simp [hnone a ha]

/-- Witness for c5_lap_filter_ordered_subsequence at the concrete mixed
sequence c5DemoLaps. -/
theorem c5_lap_filter_ordered_subsequence_witness :
    (lapFilter c5DemoLaps).Sublist c5DemoLaps ∧
    (∀ l, l ∈ lapFilter c5DemoLaps ↔ l ∈ c5DemoLaps ∧ usableLap l = true) ∧
    ((∀ l ∈ c5DemoLaps, usableLap l = false) → lapFilter c5DemoLaps = []) :=
  c5_lap_filter_ordered_subsequence c5DemoLaps

/-- Claim C6 (confirmed): the normalizer computes delta = value − reference
and delta_percent = delta / reference × 100, and on the pace set
{80, 82, 84} with reference = min = 80 it returns deltas 0, 2, 4 and
percentages 0, 2.5, 5. -/
theorem c6_pace_normalizer_deltas (v r : ℚ) (h : r ≠ 0) :
    racePaceRel v r = paceDelta v r / r * 100 ∧
    minQ [80, 82, 84] = 80 ∧
    paceDelta 80 80 = 0 ∧ paceDelta 82 80 = 2 ∧ paceDelta 84 80 = 4 ∧
    racePaceRel 80 80 = 0 ∧ racePaceRel 82 80 = 5 / 2 ∧ racePaceRel 84 80 = 5 := by
  refine ⟨rfl, by decide, by decide, by decide, by decide, by decide, by decide, by decide⟩

/-- Witness for c6_pace_normalizer_deltas at value 82 and reference 80. -/
theorem c6_pace_normalizer_deltas_witness :
    racePaceRel 82 80 = paceDelta 82 80 / 80 * 100 ∧
    minQ [80, 82, 84] = 80 ∧
    paceDelta 80 80 = 0 ∧ paceDelta 82 80 = 2 ∧ paceDelta 84 80 = 4 ∧
    racePaceRel 80 80 = 0 ∧ racePaceRel 82 80 = 5 / 2 ∧ racePaceRel 84 80 = 5 :=
  c6_pace_normalizer_deltas 82 80 (by norm_num)

/-- Claim C7 counterexample: a present but zero qualifying reference does
not produce the explicit insufficient-data skip — the division raises an
uncaught ZeroDivisionError that aborts the analysis loop. -/
theorem c7_zero_reference_uncaught_crash :
    driverDelta (some 0) (some 90) = DriverDeltaResult.zeroDivisionCrash ∧
    driverDelta (some 0) (some 90) ≠ DriverDeltaResult.insufficientSkip := by
  decide

/-- Claim C7 (amended): an absent qualifying or race pace is skipped with
an explicit insufficient-data message, and a delta row is only ever
produced from present paces with a nonzero reference — so no NaN or
infinite percentage is silently produced; but a zero reference crashes
(see the counterexample) instead of signalling ReferenceUnavailable. -/
theorem c7_absent_reference_skipped_explicitly (q r : Option ℚ) :
    ((q = none ∨ r = none) → driverDelta q r = DriverDeltaResult.insufficientSkip) ∧
    (∀ pct, driverDelta q r = DriverDeltaResult.delta pct →
      ∃ qp rp, q = some qp ∧ r = some rp ∧ qp ≠ 0 ∧ pct = (rp - qp) / qp * 100) := by
  constructor
  · rintro (rfl | rfl)
    · cases r <;> rfl
    · cases q <;> rfl
  · intro pct hp
    cases q with
    | none => simp [driverDelta] at hp
    | some qp =>
      cases r with
      | none => simp [driverDelta] at hp
      | some rp =>
        by_cases hz : qp = 0
        · simp [driverDelta, hz] at hp
        · refine ⟨qp, rp, rfl, rfl, hz, ?_⟩
          simp only [driverDelta, if_neg hz] at hp
          injection hp with h5
          exact h5.symm

/-- Witness for c7_absent_reference_skipped_explicitly with an absent
qualifying pace and race pace 90. -/
theorem c7_absent_reference_skipped_explicitly_witness :
    (((none : Option ℚ) = none ∨ (some (90 : ℚ)) = none) →
      driverDelta none (some 90) = DriverDeltaResult.insufficientSkip) ∧
    (∀ pct, driverDelta (none : Option ℚ) (some 90) = DriverDeltaResult.delta pct →
      ∃ qp rp, (none : Option ℚ) = some qp ∧ (some (90 : ℚ)) = some rp ∧ qp ≠ 0 ∧
        pct = (rp - qp) / qp * 100) :=
  c7_absent_reference_skipped_explicitly none (some 90)

/-- Claim C8 counterexample: tire_strategy_impact.py takes the FIRST
compound of a stint, so in c8Laps (whose first lap is mislabelled SOFT
among two MEDIUM laps) the stint's compound is SOFT even though SOFT
occurs strictly less often than MEDIUM — a single mislabelled lap
changes the stint's compound. -/
theorem c8_first_lap_compound_not_most_frequent :
    stintCompoundFirst c8Laps = "SOFT" ∧
    (c8Laps.map (fun l => l.compound)).count (stintCompoundFirst c8Laps)
      < (c8Laps.map (fun l => l.compound)).count "MEDIUM" := by
  decide

/-- Claim C8 (amended): in `analyze_race_stints` the stint's compound is
`mode()[0]` of the valid laps' compounds, which is a most frequent value
of that column; but in tire_strategy_impact.py the stint compound is the
first lap's compound, which a single mislabelled leading lap changes
(see the counterexample). -/
theorem c8_mode_stint_compound_most_frequent (s : List Lap) (r : StintRow)
    (h : analyzeStint s = some r) (c : String)
    (hc : c ∈ (lapFilter s).map (fun l => l.compound)) :
    ((lapFilter s).map (fun l => l.compound)).count c
      ≤ ((lapFilter s).map (fun l => l.compound)).count r.compound := by
  have hr := (analyzeStint_fields s r h).1
  rw [hr]
  exact modeCompound_most_frequent _ c hc

/-- Witness for c8_mode_stint_compound_most_frequent at the concrete
stint c8Laps and the compound SOFT. -/
theorem c8_mode_stint_compound_most_frequent_witness :
    ((lapFilter c8Laps).map (fun l => l.compound)).count "SOFT"
      ≤ ((lapFilter c8Laps).map (fun l => l.compound)).count
          (StintRow.mk "MEDIUM" 3 (181 / 2) 30).compound :=
  c8_mode_stint_compound_most_frequent c8Laps (StintRow.mk "MEDIUM" 3 (181 / 2) 30)
    (by decide) "SOFT" (by decide)

/-- Claim C9 counterexample: the stint-assignment step writes stint ids
into the lap rows it received: on c9Laps (whose laps all have an absent
Stint column) the resulting lap sequence differs from the input — the
lap data was not left unchanged. -/
theorem c9_stint_assignment_rewrites_laps :
    (∀ l ∈ c9Laps, l.stint = none) ∧
    assignStints c9Laps ≠ c9Laps ∧
    (∃ l ∈ assignStints c9Laps, l.stint ≠ (none : Option ℕ)) := by
  decide

/-- Claim C9 (amended): the stint-assignment stage of
qualifying_vs_race_pace's main overwrites exactly the Stint column of
the lap rows it received: up to the stint field the lap data is
unchanged, but the received rows themselves are mutated (see the
counterexample). -/
theorem c9_stint_assignment_changes_only_stint_field (laps : List Lap) :
    (assignStints laps).map clearStint = laps.map clearStint := by
  unfold assignStints
  rw [List.map_map]
  have h1 : (clearStint ∘ fun p : ℕ × Lap => { p.2 with stint := some p.1 })
      = fun p : ℕ × Lap => clearStint p.2 := by
    funext p
    rfl
  rw [h1]
  have h2 : (fun p : ℕ × Lap => clearStint p.2) = clearStint ∘ Prod.snd := rfl
  rw [h2, ← List.map_map, labelLaps_map_snd]

/-- Claim C10 (confirmed): for columns of equal length with at least two
x values, not all equal, the least-squares slope against the x column
shifted by its minimum (the relative lap numbers) equals the slope
against the unshifted x column (the absolute lap numbers): the two
fitting variants agree. -/
theorem c10_ols_slope_shift_invariance (xs ys : List ℚ) (h2 : 2 ≤ xs.length)
    (hlen : xs.length = ys.length) (hvar : ∃ a ∈ xs, ∃ b ∈ xs, a ≠ b) :
    polyfitSlope (xs.map (fun x => x - minQ xs)) ys = polyfitSlope xs ys :=
  polyfitSlope_shift (minQ xs) xs ys hlen

/-- Witness for c10_ols_slope_shift_invariance on the synthetic stint
with lap numbers 5, 6, 7. -/
theorem c10_ols_slope_shift_invariance_witness :
    2 ≤ ([5, 6, 7] : List ℚ).length ∧
    polyfitSlope (([5, 6, 7] : List ℚ).map (fun x => x - minQ [5, 6, 7]))
        [90, 181 / 2, 91]
      = polyfitSlope [5, 6, 7] [90, 181 / 2, 91] :=
  ⟨by decide,
    c10_ols_slope_shift_invariance [5, 6, 7] [90, 181 / 2, 91] (by decide)
      (by decide) (by decide)⟩

end

end Formula1
